import Mathlib

/-!
Shallow embedding of `src/harmony_v1.1.0_release_verifier.py`.

The script drives a six-step release-verification pipeline against the
GitHub REST API.  We model the API as a `Gateway`: one field per endpoint
family the script queries, each returning an `ApiResult` that separates the
three outcomes `_call_github_api` distinguishes (HTTP 200 with a JSON
payload, HTTP 404, and any other status or raised exception).  Each Python
helper becomes a Lean function on the gateway; functions that perform API
calls additionally return the list of calls they issue, so that the
fail-fast / short-circuit behaviour of the orchestrator is visible in the
model.  Python truthiness tests (`if not x`) are translated exactly:
`None` and `""` collapse for strings, `None` and `0` collapse for the PR
number.
-/

set_option maxRecDepth 10000

/-- Outcome of one HTTP GET as classified by `_call_github_api`:
HTTP 200 with payload, HTTP 404, or any other status / raised exception. -/
inductive ApiResult (α : Type) where
  | ok (payload : α)
  | notFound
  | transportError
deriving DecidableEq, Repr

/-- `ApiResult.isOk r = true` iff the call returned HTTP 200 with a payload. -/
def ApiResult.isOk {α : Type} : ApiResult α → Bool
  | .ok _ => true
  | .notFound => false
  | .transportError => false

/-- `_call_github_api` (lines 38-58): returns `(True, json)` on HTTP 200 and
`(False, None)` both on 404 and on any other error; the two failure kinds
differ only in the diagnostic printed to stderr, not in the returned value. -/
def call_github_api {α : Type} : ApiResult α → Bool × Option α
  | .ok p => (true, some p)
  | .notFound => (false, none)
  | .transportError => (false, none)

/-- One pull-request record as used by the script: the fields it reads via
`.get` from the GitHub JSON.  `number` is `Option Nat` because the script
reads it with `release_pr.get("number")`, which yields `None` when absent. -/
structure PullRequest where
  number : Option Nat
  title : String
  merged_at : Option String
  base_ref : Option String
  merge_commit_sha : Option String
deriving DecidableEq, Repr

/-- One commit record: the script reads `parents` (only its length matters,
we keep the parent shas) and `commit.message` (defaulting to `""`). -/
structure Commit where
  parents : List String
  message : String
deriving DecidableEq, Repr

/-- The repository-query surface used by the script, one field per endpoint
family; the organization, repository name and auth headers are fixed for a
run, so they are baked into the gateway value.
* `fileContents path branch` carries `Option String`: the Base64-decoded
  UTF-8 text of the file, or `none` when decoding raises (the `except`
  branch of `_get_file_content`).
* `pullsList base` is the `pulls?state=closed&base=...&per_page=100` page. -/
structure Gateway where
  branches : String → ApiResult Unit
  fileContents : String → String → ApiResult (Option String)
  pullsList : String → ApiResult (List PullRequest)
  pullDetail : Nat → ApiResult PullRequest
  commitDetail : String → ApiResult Commit

/-- A record of one API call issued by the script, used to state which
gateway operations a step performs. -/
inductive ApiCall where
  | branch (name : String)
  | fileContents (path branch : String)
  | pullsList (base : String)
  | pullDetail (n : Nat)
  | commitDetail (sha : String)
deriving DecidableEq, Repr

/-- Substring test on character lists: `pat` occurs contiguously in the
second list.  Executable counterpart of Python's `pat in s`. -/
def strContainsAux : List Char → List Char → Bool
  | pat, [] => pat.isEmpty
  | pat, c :: rest => pat.isPrefixOf (c :: rest) || strContainsAux pat rest

/-- Python's `t in s` on strings: `t` occurs verbatim (case-sensitive,
contiguous) in `s`. -/
def strContains (s t : String) : Bool :=
  strContainsAux t.data s.data

/-- Python's `str.lower()` (the strings compared in the script are ASCII). -/
def strLower (s : String) : String :=
  String.mk (s.data.map Char.toLower)

/-- `_check_branch_exists` (lines 61-69): one `branches/{name}` call, the
boolean is the success component of `_call_github_api`. -/
def check_branch_exists (gw : Gateway) (branch_name : String) :
    Bool × List ApiCall :=
  ((call_github_api (gw.branches branch_name)).1, [ApiCall.branch branch_name])

/-- `_get_file_content` (lines 72-91): one `contents/{path}?ref={branch}`
call; `None` when the call fails, when the payload is missing, or when
Base64/UTF-8 decoding raises.  An empty file decodes to `some ""`. -/
def get_file_content (gw : Gateway) (file_path branch : String) :
    Option String × List ApiCall :=
  (match call_github_api (gw.fileContents file_path branch) with
    | (true, some decoded) => decoded
    | _ => none,
   [ApiCall.fileContents file_path branch])

/-- `_find_merged_pr` (lines 94-115): fetch the closed-PR page for the base
branch, return the first entry whose lower-cased title contains the
lower-cased keyword and whose `merged_at` is not `None`. -/
def find_merged_pr (gw : Gateway) (pr_title_keyword base_branch : String) :
    Option PullRequest × List ApiCall :=
  (match call_github_api (gw.pullsList base_branch) with
    | (true, some pr_list) =>
        pr_list.find? (fun pr =>
          strContains (strLower pr.title) (strLower pr_title_keyword) &&
          pr.merged_at.isSome)
    | _ => none,
   [ApiCall.pullsList base_branch])

/-- `_verify_squash_merge` (lines 118-150): fetch the PR, require a truthy
`merge_commit_sha` (neither `None` nor `""`), fetch that commit, require
exactly one parent and the literal `#<pr_number>` in the commit message. -/
def verify_squash_merge (gw : Gateway) (pr_number : Nat) :
    Bool × List ApiCall :=
  match call_github_api (gw.pullDetail pr_number) with
  | (true, some pr_detail) =>
      match pr_detail.merge_commit_sha with
      | none => (false, [ApiCall.pullDetail pr_number])
      | some sha =>
          if sha = "" then (false, [ApiCall.pullDetail pr_number])
          else
            match call_github_api (gw.commitDetail sha) with
            | (true, some commit_detail) =>
                (if commit_detail.parents.length ≠ 1 then false
                 else strContains commit_detail.message
                    ("#" ++ toString pr_number),
                 [ApiCall.pullDetail pr_number, ApiCall.commitDetail sha])
            | _ => (false, [ApiCall.pullDetail pr_number, ApiCall.commitDetail sha])
  | _ => (false, [ApiCall.pullDetail pr_number])

/-- The environment read by `_load_env`: the two variables from
`.env.release`; `none` models an unset variable. -/
structure Env where
  github_token : Option String
  github_org : Option String
deriving DecidableEq, Repr

/-- Python truthiness of an optional string: `None` and `""` are falsy. -/
def truthy_str : Option String → Bool
  | none => false
  | some s => !(s = "")

/-- `_verify_environment` (lines 156-171): returns the organization when both
the token and the organization are configured (truthy), `None` otherwise. -/
def verify_environment (env : Env) : Option String :=
  if !truthy_str env.github_token then none
  else if !truthy_str env.github_org then none
  else env.github_org

/-- `_verify_branches` (lines 174-194): check `release-v1.1.0` first and
short-circuit on its failure, then check `main`. -/
def verify_branches (gw : Gateway) : Bool × List ApiCall :=
  let rel := check_branch_exists gw "release-v1.1.0"
  if !rel.1 then (false, rel.2)
  else
    let base := check_branch_exists gw "main"
    (base.1, rel.2 ++ base.2)

/-- The three shapes of content requirement in the `core_files` table:
`required_content` / `required_contents` / `required_keywords`. -/
inductive ContentPredicate where
  | required_content (text : String)
  | required_contents (texts : List String)
  | required_keywords (texts : List String)
deriving DecidableEq, Repr

/-- One entry of the `core_files` table (lines 205-242). -/
structure FileRule where
  name : String
  path : String
  branch : String
  pred : ContentPredicate
  min_size : Nat
deriving DecidableEq, Repr

/-- The fixed four-rule `core_files` table of `_verify_core_files`, with the
exact strings of the source. -/
def core_files : List FileRule :=
  [{ name := "编码配置文件",
     path := "src/encoding.rs",
     branch := "main",
     pred := ContentPredicate.required_content
       "FormattingToken::MetaSep => \"<|meta_sep|>\"",
     min_size := 500 },
   { name := "注册表文件",
     path := "src/registry.rs",
     branch := "main",
     pred := ContentPredicate.required_contents
       ["(FormattingToken::MetaSep, \"<|meta_sep|>\")",
        "(FormattingToken::MetaEnd, \"<|meta_end|>\")"],
     min_size := 500 },
   { name := "版本配置文件",
     path := "Cargo.toml",
     branch := "main",
     pred := ContentPredicate.required_content "version = \"1.1.0\"",
     min_size := 200 },
   { name := "变更日志文件",
     path := "CHANGELOG.md",
     branch := "main",
     pred := ContentPredicate.required_keywords
       ["## [1.1.0] - 2025-08-07",
        "MetaSep token mapping bug",
        "Fixed MetaSep token",
        "Registry now properly recognizes"],
     min_size := 300 }]

/-- The required strings of a content predicate that are absent from the
given text (the `missing` lists of lines 263-276; for the single-string
shape the list is `[text]` when the string is absent). -/
def missing_of (p : ContentPredicate) (content : String) : List String :=
  match p with
  | .required_content t => if strContains content t then [] else [t]
  | .required_contents ts => ts.filter (fun t => !strContains content t)
  | .required_keywords ts => ts.filter (fun t => !strContains content t)

/-- Outcome of one iteration of the `_verify_core_files` loop for one rule:
which failure branch was taken, or success. -/
inductive RuleOutcome where
  | not_found_or_unreadable
  | size_too_small (actual required : Nat)
  | missing_content (missing : List String)
  | passed
deriving DecidableEq, Repr

/-- The loop body of `_verify_core_files` (lines 245-282) for one rule and
its fetched content.  `if not file_content` is Python truthiness: `None`
and `""` both take the "not found or unreadable" branch; only then are the
size and the content predicate examined. -/
def check_rule (rule : FileRule) (content : Option String) : RuleOutcome :=
  match content with
  | none => RuleOutcome.not_found_or_unreadable
  | some s =>
      if s = "" then RuleOutcome.not_found_or_unreadable
      else if s.length < rule.min_size then
        RuleOutcome.size_too_small s.length rule.min_size
      else
        match missing_of rule.pred s with
        | [] => RuleOutcome.passed
        | m => RuleOutcome.missing_content m

/-- `_verify_core_files` (lines 197-288): every rule is evaluated, in table
order, regardless of earlier failures (the loop uses `continue`, never
`break`); `all_passed` is true iff no rule failed.  Returns the step
boolean, the API calls issued (one file fetch per rule), and the per-rule
outcomes. -/
def verify_core_files (gw : Gateway) :
    Bool × List ApiCall × List RuleOutcome :=
  let outcomes := core_files.map (fun rule =>
    check_rule rule (get_file_content gw rule.path rule.branch).1)
  (outcomes.all (fun o => o = RuleOutcome.passed),
   core_files.map (fun rule => ApiCall.fileContents rule.path rule.branch),
   outcomes)

/-- `_verify_release_pr` (lines 291-309): discovery with the fixed keyword
`"Release v1.1.0"` against base `"main"`; returns `release_pr.get("number")`
(which is `None` when the field is absent) or `None` when no PR matched. -/
def verify_release_pr (gw : Gateway) : Option Nat × List ApiCall :=
  let found := find_merged_pr gw "Release v1.1.0" "main"
  (match found.1 with
    | none => none
    | some pr => pr.number,
   found.2)

/-- Result of `_verify_pr_merge_target`, keeping the data of the failure
diagnostics: a failed fetch, or a base-branch mismatch naming the actual
and the expected branch. -/
inductive TargetOutcome where
  | fetch_failed
  | base_mismatch (actual : Option String) (expected : String)
  | target_ok
deriving DecidableEq, Repr

/-- `TargetOutcome` as the boolean `_verify_pr_merge_target` returns. -/
def target_passed : TargetOutcome → Bool
  | .target_ok => true
  | _ => false

/-- `_verify_pr_merge_target` (lines 312-334): re-fetch the PR by number
(`pulls/{n}`, not the discovery record) and compare `base.ref` to the
expected `"main"` with `!=`. -/
def verify_pr_merge_target (gw : Gateway) (pr_number : Nat) :
    TargetOutcome × List ApiCall :=
  (match call_github_api (gw.pullDetail pr_number) with
    | (true, some pr_detail) =>
        if pr_detail.base_ref ≠ some "main" then
          TargetOutcome.base_mismatch pr_detail.base_ref "main"
        else TargetOutcome.target_ok
    | _ => TargetOutcome.fetch_failed,
   [ApiCall.pullDetail pr_number])

/-- `_verify_merge_method` (lines 337-351): delegates to
`_verify_squash_merge`, only adding prints. -/
def verify_merge_method (gw : Gateway) (pr_number : Nat) :
    Bool × List ApiCall :=
  verify_squash_merge gw pr_number

/-- The six pipeline steps, in the order the orchestrator runs them. -/
inductive Step where
  | environment
  | branches
  | files
  | pr_discovery
  | pr_target
  | merge_method
deriving DecidableEq, Repr

/-- The canonical step order of `run_harmony_release_verification`. -/
def step_order : List Step :=
  [Step.environment, Step.branches, Step.files, Step.pr_discovery,
   Step.pr_target, Step.merge_method]

/-- Result of one run: the boolean the function returns, the steps that
executed with their pass/fail outcome (in execution order), and every API
call issued. -/
structure RunResult where
  passed : Bool
  steps : List (Step × Bool)
  calls : List ApiCall
deriving DecidableEq, Repr

/-- `run_harmony_release_verification` (lines 357-400): strictly sequential;
each step runs only if every earlier step passed (`if not ...: return
False` after each).  The PR number check `if not pr_number` is Python
truthiness: `None` and `0` both abort.  Environment checking issues no API
call. -/
def run_harmony_release_verification (env : Env) (gw : Gateway) : RunResult :=
  match verify_environment env with
  | none => ⟨false, [(Step.environment, false)], []⟩
  | some _ =>
    let b := verify_branches gw
    if !b.1 then
      ⟨false, [(Step.environment, true), (Step.branches, false)], b.2⟩
    else
      let f := verify_core_files gw
      if !f.1 then
        ⟨false, [(Step.environment, true), (Step.branches, true),
                 (Step.files, false)], b.2 ++ f.2.1⟩
      else
        let p := verify_release_pr gw
        match p.1 with
        | none =>
            ⟨false, [(Step.environment, true), (Step.branches, true),
                     (Step.files, true), (Step.pr_discovery, false)],
             b.2 ++ f.2.1 ++ p.2⟩
        | some pr_number =>
          if pr_number = 0 then
            ⟨false, [(Step.environment, true), (Step.branches, true),
                     (Step.files, true), (Step.pr_discovery, false)],
             b.2 ++ f.2.1 ++ p.2⟩
          else
            let t := verify_pr_merge_target gw pr_number
            if !target_passed t.1 then
              ⟨false, [(Step.environment, true), (Step.branches, true),
                       (Step.files, true), (Step.pr_discovery, true),
                       (Step.pr_target, false)],
               b.2 ++ f.2.1 ++ p.2 ++ t.2⟩
            else
              let m := verify_merge_method gw pr_number
              ⟨m.1, [(Step.environment, true), (Step.branches, true),
                     (Step.files, true), (Step.pr_discovery, true),
                     (Step.pr_target, true), (Step.merge_method, m.1)],
               b.2 ++ f.2.1 ++ p.2 ++ t.2 ++ m.2⟩

/-- The `__main__` block (lines 406-409): exit code 0 when the run returns
`True`, 1 otherwise. -/
def main_exit_code (env : Env) (gw : Gateway) : Nat :=
  if (run_harmony_release_verification env gw).passed then 0 else 1

/-! ### Concrete repository states used to exercise the checks -/

/-- `n` copies of the filler character, to push demo files over the size
thresholds of `core_files`. -/
def pad (n : Nat) : String :=
  String.mk (List.replicate n 'x')

/-- Demo `src/encoding.rs` satisfying its rule. -/
def good_encoding_text : String :=
  "FormattingToken::MetaSep => \"<|meta_sep|>\"" ++ pad 500

/-- Demo `src/registry.rs` satisfying its rule. -/
def good_registry_text : String :=
  "(FormattingToken::MetaSep, \"<|meta_sep|>\")" ++
  "(FormattingToken::MetaEnd, \"<|meta_end|>\")" ++ pad 500

/-- Demo `Cargo.toml` satisfying its rule. -/
def good_cargo_text : String :=
  "version = \"1.1.0\"" ++ pad 200

/-- Demo `CHANGELOG.md` containing all four required keywords. -/
def good_changelog_text : String :=
  "## [1.1.0] - 2025-08-07 MetaSep token mapping bug Fixed MetaSep token " ++
  "Registry now properly recognizes " ++ pad 300

/-- Demo `CHANGELOG.md` lacking exactly the keyword
`"MetaSep token mapping bug"` (it keeps the other three). -/
def bad_changelog_text : String :=
  "## [1.1.0] - 2025-08-07 Fixed MetaSep token " ++
  "Registry now properly recognizes " ++ pad 300

/-- The squash-merge commit of the demo release PR. -/
def demo_commit_42 : Commit :=
  { parents := ["parent0"], message := "Release v1.1.0 (#42)" }

/-- The demo release PR: number 42, merged into `main`. -/
def demo_pr_42 : PullRequest :=
  { number := some 42,
    title := "Release v1.1.0",
    merged_at := some "2025-08-07T12:00:00Z",
    base_ref := some "main",
    merge_commit_sha := some "abc123" }

/-- A repository state in which every check passes. -/
def good_gw : Gateway :=
  { branches := fun _ => ApiResult.ok (),
    fileContents := fun path _ =>
      if path = "src/encoding.rs" then ApiResult.ok (some good_encoding_text)
      else if path = "src/registry.rs" then ApiResult.ok (some good_registry_text)
      else if path = "Cargo.toml" then ApiResult.ok (some good_cargo_text)
      else if path = "CHANGELOG.md" then ApiResult.ok (some good_changelog_text)
      else ApiResult.notFound,
    pullsList := fun _ => ApiResult.ok [demo_pr_42],
    pullDetail := fun n =>
      if n = 42 then ApiResult.ok demo_pr_42 else ApiResult.notFound,
    commitDetail := fun sha =>
      if sha = "abc123" then ApiResult.ok demo_commit_42
      else ApiResult.notFound }

/-- `good_gw` with the release branch absent (404). -/
def bad_branch_gw : Gateway :=
  { good_gw with
    branches := fun name =>
      if name = "release-v1.1.0" then ApiResult.notFound
      else ApiResult.ok () }

/-- `good_gw` with the changelog missing one required keyword. -/
def bad_changelog_gw : Gateway :=
  { good_gw with
    fileContents := fun path b =>
      if path = "CHANGELOG.md" then ApiResult.ok (some bad_changelog_text)
      else good_gw.fileContents path b }

/-- A merged matching PR whose `number` field is absent. -/
def pr_no_number : PullRequest :=
  { number := none,
    title := "Release v1.1.0",
    merged_at := some "2025-08-07T12:00:00Z",
    base_ref := some "main",
    merge_commit_sha := some "abc123" }

/-- `good_gw` where discovery finds only a PR without a `number` field. -/
def no_number_gw : Gateway :=
  { good_gw with pullsList := fun _ => ApiResult.ok [pr_no_number] }

/-- A gateway whose every PR fetch yields a PR pointing at the one commit
`c`, used to probe `verify_squash_merge` on that commit. -/
def squash_demo_gw (c : Commit) : Gateway :=
  { branches := fun _ => ApiResult.ok (),
    fileContents := fun _ _ => ApiResult.notFound,
    pullsList := fun _ => ApiResult.notFound,
    pullDetail := fun n =>
      ApiResult.ok
        { number := some n,
          title := "Release v1.1.0",
          merged_at := some "2025-08-07T12:00:00Z",
          base_ref := some "main",
          merge_commit_sha := some "sha-1" },
    commitDetail := fun _ => ApiResult.ok c }

/-- Closed PRs for the discovery example: only the third entry has both a
matching title and a merged timestamp; the fourth also matches. -/
def c3_pr_a : PullRequest :=
  { number := some 7, title := "Fix docs", merged_at := some "2025-08-01",
    base_ref := some "main", merge_commit_sha := none }

/-- Title matches but the PR was closed without merging. -/
def c3_pr_b : PullRequest :=
  { number := some 8, title := "Release v1.1.0 draft", merged_at := none,
    base_ref := some "main", merge_commit_sha := none }

/-- The first entry with both a matching title and a merged timestamp. -/
def c3_pr_c : PullRequest :=
  { number := some 9, title := "Release v1.1.0", merged_at := some "2025-08-07",
    base_ref := some "main", merge_commit_sha := some "s9" }

/-- A later entry that also matches; discovery must not return it. -/
def c3_pr_d : PullRequest :=
  { number := some 10, title := "Release v1.1.0 again",
    merged_at := some "2025-08-08",
    base_ref := some "main", merge_commit_sha := some "s10" }

/-- The gateway page for the discovery example. -/
def c3_pr_page : List PullRequest :=
  [c3_pr_a, c3_pr_b, c3_pr_c, c3_pr_d]

/-- Gateway for the discovery example. -/
def c3_gw : Gateway :=
  { good_gw with pullsList := fun _ => ApiResult.ok c3_pr_page }

/-- A fully configured environment. -/
def demo_env : Env :=
  { github_token := some "token-abc", github_org := some "my-team-harmony" }

/-- An environment with the release token unset. -/
def no_token_env : Env :=
  { github_token := none, github_org := some "my-team-harmony" }

/-! ### General lemmas about the embedded operations -/

theorem strContainsAux_iff (pat l : List Char) :
    strContainsAux pat l = true ↔ pat <:+: l := by
  induction l with
  | nil => simp [strContainsAux, List.isEmpty_iff]
  | cons c rest ih =>
      simp only [strContainsAux, Bool.or_eq_true, ih,
        List.isPrefixOf_iff_prefix, List.infix_cons_iff]

theorem strContains_iff (s t : String) :
    strContains s t = true ↔ ∃ u v, u ++ t.data ++ v = s.data :=
  (strContainsAux_iff t.data s.data).trans Iff.rfl

theorem check_branch_exists_fst (gw : Gateway) (name : String) :
    (check_branch_exists gw name).1 = (gw.branches name).isOk := by
  cases h : gw.branches name <;>
    simp [check_branch_exists, call_github_api, h, ApiResult.isOk]

theorem verify_branches_fst (gw : Gateway) :
    (verify_branches gw).1 =
      ((gw.branches "release-v1.1.0").isOk && (gw.branches "main").isOk) := by
  unfold verify_branches
  cases h1 : gw.branches "release-v1.1.0" <;>
    cases h2 : gw.branches "main" <;>
      simp [check_branch_exists, call_github_api, h1, h2, ApiResult.isOk]

theorem verify_branches_fail_eq (gw : Gateway)
    (h : (gw.branches "release-v1.1.0").isOk = false) :
    verify_branches gw = (false, [ApiCall.branch "release-v1.1.0"]) := by
  unfold verify_branches
  cases h1 : gw.branches "release-v1.1.0" <;>
    simp [h1, ApiResult.isOk] at h ⊢ <;>
    simp [check_branch_exists, call_github_api, h1]

theorem verify_branches_calls (gw : Gateway) :
    ∀ c ∈ (verify_branches gw).2, ∃ name, c = ApiCall.branch name := by
  unfold verify_branches
  cases h1 : gw.branches "release-v1.1.0" <;>
    simp [check_branch_exists, call_github_api, h1]

theorem verify_core_files_calls (gw : Gateway) :
    (verify_core_files gw).2.1 =
      core_files.map (fun rule => ApiCall.fileContents rule.path rule.branch) :=
  rfl

theorem verify_release_pr_calls (gw : Gateway) :
    (verify_release_pr gw).2 = [ApiCall.pullsList "main"] :=
  rfl

theorem verify_environment_eq_none_iff (env : Env) :
    verify_environment env = none ↔
      (truthy_str env.github_token = false ∨
       truthy_str env.github_org = false) := by
  unfold verify_environment
  cases ht : truthy_str env.github_token <;>
    cases ho : truthy_str env.github_org <;>
      simp [ht, ho] <;>
      cases h : env.github_org <;> simp_all [truthy_str]

/-- Exhaustive description of one run: exactly one of the seven exits of
`run_harmony_release_verification` is taken, each leaving the recorded
steps and the issued calls in the stated shape. -/
theorem run_cases (env : Env) (gw : Gateway) :
    (verify_environment env = none ∧
      run_harmony_release_verification env gw =
        ⟨false, [(Step.environment, false)], []⟩) ∨
    (verify_environment env ≠ none ∧ (verify_branches gw).1 = false ∧
      run_harmony_release_verification env gw =
        ⟨false, [(Step.environment, true), (Step.branches, false)],
         (verify_branches gw).2⟩) ∨
    (verify_environment env ≠ none ∧ (verify_branches gw).1 = true ∧
      (verify_core_files gw).1 = false ∧
      run_harmony_release_verification env gw =
        ⟨false, [(Step.environment, true), (Step.branches, true),
                 (Step.files, false)],
         (verify_branches gw).2 ++ (verify_core_files gw).2.1⟩) ∨
    (verify_environment env ≠ none ∧ (verify_branches gw).1 = true ∧
      (verify_core_files gw).1 = true ∧
      ((verify_release_pr gw).1 = none ∨ (verify_release_pr gw).1 = some 0) ∧
      run_harmony_release_verification env gw =
        ⟨false, [(Step.environment, true), (Step.branches, true),
                 (Step.files, true), (Step.pr_discovery, false)],
         (verify_branches gw).2 ++ (verify_core_files gw).2.1 ++
           (verify_release_pr gw).2⟩) ∨
    (∃ n : Nat, verify_environment env ≠ none ∧ (verify_branches gw).1 = true ∧
      (verify_core_files gw).1 = true ∧
      (verify_release_pr gw).1 = some n ∧ n ≠ 0 ∧
      target_passed (verify_pr_merge_target gw n).1 = false ∧
      run_harmony_release_verification env gw =
        ⟨false, [(Step.environment, true), (Step.branches, true),
                 (Step.files, true), (Step.pr_discovery, true),
                 (Step.pr_target, false)],
         (verify_branches gw).2 ++ (verify_core_files gw).2.1 ++
           (verify_release_pr gw).2 ++ (verify_pr_merge_target gw n).2⟩) ∨
    (∃ n : Nat, verify_environment env ≠ none ∧ (verify_branches gw).1 = true ∧
      (verify_core_files gw).1 = true ∧
      (verify_release_pr gw).1 = some n ∧ n ≠ 0 ∧
      target_passed (verify_pr_merge_target gw n).1 = true ∧
      run_harmony_release_verification env gw =
        ⟨(verify_merge_method gw n).1,
         [(Step.environment, true), (Step.branches, true),
          (Step.files, true), (Step.pr_discovery, true),
          (Step.pr_target, true),
          (Step.merge_method, (verify_merge_method gw n).1)],
         (verify_branches gw).2 ++ (verify_core_files gw).2.1 ++
           (verify_release_pr gw).2 ++ (verify_pr_merge_target gw n).2 ++
           (verify_merge_method gw n).2⟩) := by
  rcases henv : verify_environment env with _ | org
  · exact Or.inl ⟨rfl, by simp [run_harmony_release_verification, henv]⟩
  · cases hb : (verify_branches gw).1
    · refine Or.inr (Or.inl ⟨by simp [henv], rfl, ?_⟩)
      simp [run_harmony_release_verification, henv, hb]
    · cases hf : (verify_core_files gw).1
      · refine Or.inr (Or.inr (Or.inl ⟨by simp [henv], rfl, rfl, ?_⟩))
        simp [run_harmony_release_verification, henv, hb, hf]
      · rcases hp : (verify_release_pr gw).1 with _ | n
        · refine Or.inr (Or.inr (Or.inr (Or.inl
            ⟨by simp [henv], rfl, rfl, Or.inl rfl, ?_⟩)))
          simp [run_harmony_release_verification, henv, hb, hf, hp]
        · by_cases hn : n = 0
          · subst hn
            refine Or.inr (Or.inr (Or.inr (Or.inl
              ⟨by simp [henv], rfl, rfl, Or.inr rfl, ?_⟩)))
            simp [run_harmony_release_verification, henv, hb, hf, hp]
          · cases ht : target_passed (verify_pr_merge_target gw n).1
            · refine Or.inr (Or.inr (Or.inr (Or.inr (Or.inl
                ⟨n, by simp [henv], rfl, rfl, rfl, hn, ht, ?_⟩))))
              simp [run_harmony_release_verification, henv, hb, hf, hp, hn, ht]
            · refine Or.inr (Or.inr (Or.inr (Or.inr (Or.inr
                ⟨n, by simp [henv], rfl, rfl, rfl, hn, ht, ?_⟩))))
              simp [run_harmony_release_verification, henv, hb, hf, hp, hn, ht]

theorem run_steps_canonical_order (env : Env) (gw : Gateway) :
    (run_harmony_release_verification env gw).steps.map Prod.fst =
      step_order.take (run_harmony_release_verification env gw).steps.length := by
  rcases run_cases env gw with ⟨_, h⟩ | ⟨_, _, h⟩ | ⟨_, _, _, h⟩ | ⟨_, _, _, _, h⟩ |
    ⟨n, _, _, _, _, _, _, h⟩ | ⟨n, _, _, _, _, _, _, h⟩ <;>
    rw [h] <;> simp [step_order]

theorem run_dropLast_passed (env : Env) (gw : Gateway) :
    ∀ p ∈ (run_harmony_release_verification env gw).steps.dropLast,
      p.2 = true := by
  rcases run_cases env gw with ⟨_, h⟩ | ⟨_, _, h⟩ | ⟨_, _, _, h⟩ | ⟨_, _, _, _, h⟩ |
    ⟨n, _, _, _, _, _, _, h⟩ | ⟨n, _, _, _, _, _, _, h⟩ <;>
    rw [h] <;> simp

theorem run_passed_false_iff (env : Env) (gw : Gateway) :
    (run_harmony_release_verification env gw).passed = false ↔
      ∃ p ∈ (run_harmony_release_verification env gw).steps, p.2 = false := by
  rcases run_cases env gw with ⟨_, h⟩ | ⟨_, _, h⟩ | ⟨_, _, _, h⟩ | ⟨_, _, _, _, h⟩ |
    ⟨n, _, _, _, _, _, _, h⟩ | ⟨n, _, _, _, _, _, _, h⟩
  · rw [h]; simp
  · rw [h]; simp
  · rw [h]; simp
  · rw [h]; simp
  · rw [h]; simp
  · rw [h]
    cases hm : (verify_merge_method gw n).1 <;> simp [hm]

theorem run_passed_true_iff (env : Env) (gw : Gateway) :
    (run_harmony_release_verification env gw).passed = true ↔
      ∀ p ∈ (run_harmony_release_verification env gw).steps, p.2 = true := by
  rcases run_cases env gw with ⟨_, h⟩ | ⟨_, _, h⟩ | ⟨_, _, _, h⟩ | ⟨_, _, _, _, h⟩ |
    ⟨n, _, _, _, _, _, _, h⟩ | ⟨n, _, _, _, _, _, _, h⟩
  · rw [h]; simp
  · rw [h]; simp
  · rw [h]; simp
  · rw [h]; simp
  · rw [h]; simp
  · rw [h]
    cases hm : (verify_merge_method gw n).1 <;> simp [hm]

/-- Claim C1: under a gateway state in which the PR fetch succeeds with a
truthy (non-empty) merge commit sha and the commit fetch succeeds, the
squash-merge validation returns true iff the commit has exactly one parent
and its message contains the literal substring `#<n>`; in particular a
one-parent commit with message `"Release v1.1.0 (#42)"` is valid for PR 42,
invalid for PR 43, and any commit with two or more parents is invalid
regardless of its message. -/
theorem claim_C1_squash_merge_iff :
    (∀ (gw : Gateway) (n : Nat) (pr : PullRequest) (sha : String) (c : Commit),
      gw.pullDetail n = ApiResult.ok pr →
      pr.merge_commit_sha = some sha → sha ≠ "" →
      gw.commitDetail sha = ApiResult.ok c →
      ((verify_squash_merge gw n).1 = true ↔
        (c.parents.length = 1 ∧
         strContains c.message ("#" ++ toString n) = true))) ∧
    (verify_squash_merge
      (squash_demo_gw ⟨["p0"], "Release v1.1.0 (#42)"⟩) 42).1 = true ∧
    (verify_squash_merge
      (squash_demo_gw ⟨["p0"], "Release v1.1.0 (#42)"⟩) 43).1 = false ∧
    (∀ (msg p1 p2 : String) (rest : List String) (n : Nat),
      (verify_squash_merge
        (squash_demo_gw ⟨p1 :: p2 :: rest, msg⟩) n).1 = false) := by
  refine ⟨?_, by decide, by decide, ?_⟩
  · intro gw n pr sha c hpr hsha hne hc
    simp only [verify_squash_merge, call_github_api, hpr, hsha, hne, hc,
      if_neg hne]
    by_cases hp : c.parents.length = 1 <;> simp [hp]
  · intro msg p1 p2 rest n
    simp [verify_squash_merge, squash_demo_gw, call_github_api]

/-- Claim C9: in the file-integrity loop a fetched content equal to the
empty string is treated exactly like a missing or unreadable file: the
rule takes the "not found or unreadable" branch, so neither the size nor
the content predicate is examined, because the check is on Python
truthiness rather than on `None`-ness. -/
theorem claim_C9_empty_content_is_not_found :
    ∀ rule : FileRule,
      check_rule rule (some "") = RuleOutcome.not_found_or_unreadable ∧
      check_rule rule none = RuleOutcome.not_found_or_unreadable ∧
      check_rule rule (some "") = check_rule rule none := by
  intro rule
  refine ⟨?_, rfl, ?_⟩ <;> simp [check_rule]

/-- Claim C5: content matching is case-sensitive literal-substring matching
with no normalization, for all three predicate shapes: a required string is
satisfied exactly when it occurs verbatim in the file text; a file
containing "MetaSep token mapping bug" satisfies that required keyword but
not its lower-cased variant. -/
theorem claim_C5_literal_substring_matching :
    ∀ (s t : String) (ts : List String),
      (missing_of (ContentPredicate.required_content t) s = [] ↔
        strContains s t = true) ∧
      (missing_of (ContentPredicate.required_contents ts) s = [] ↔
        ∀ t2 ∈ ts, strContains s t2 = true) ∧
      (missing_of (ContentPredicate.required_keywords ts) s = [] ↔
        ∀ t2 ∈ ts, strContains s t2 = true) ∧
      (strContains s t = true ↔ ∃ u v, u ++ t.data ++ v = s.data) ∧
      strContains "The changelog documents the MetaSep token mapping bug fix"
        "MetaSep token mapping bug" = true ∧
      strContains "The changelog documents the MetaSep token mapping bug fix"
        "metasep token mapping bug" = false := by
  intro s t ts
  refine ⟨?_, ?_, ?_, strContains_iff s t, by decide, by decide⟩
  · by_cases h : strContains s t <;> simp [missing_of, h]
  · simp [missing_of, List.filter_eq_nil_iff]
  · simp [missing_of, List.filter_eq_nil_iff]

/-- Claim C6: the Branch Check passes iff the branch-existence query
succeeds (HTTP 200) for both the release branch and the base branch; a 404
and a transport/auth error are indistinguishable to the control flow, both
producing the same `(False, None)` value from the API helper. -/
theorem claim_C6_branch_check :
    ∀ gw : Gateway,
      ((verify_branches gw).1 = true ↔
        ((gw.branches "release-v1.1.0").isOk = true ∧
         (gw.branches "main").isOk = true)) ∧
      (∀ (α : Type) (r r2 : ApiResult α),
        r.isOk = false → r2.isOk = false →
        call_github_api r = call_github_api r2) := by
  intro gw
  constructor
  · rw [verify_branches_fst]
    simp
  · intro α r r2 hr hr2
    cases r <;> cases r2 <;> simp_all [ApiResult.isOk, call_github_api]

/-- Claim C7: the Merge-Target Check issues exactly one `pulls/{n}` fetch
(the authoritative single-resource fetch, independent of the discovery
record), passes iff the fetched PR's base ref is exactly `"main"`, and on a
mismatch its outcome names both the actual and the expected branch. -/
theorem claim_C7_merge_target :
    ∀ (gw : Gateway) (n : Nat),
      ((verify_pr_merge_target gw n).2 = [ApiCall.pullDetail n]) ∧
      (target_passed (verify_pr_merge_target gw n).1 = true ↔
        ∃ pr : PullRequest, gw.pullDetail n = ApiResult.ok pr ∧
          pr.base_ref = some "main") ∧
      (∀ pr : PullRequest, gw.pullDetail n = ApiResult.ok pr →
        pr.base_ref ≠ some "main" →
        (verify_pr_merge_target gw n).1 =
          TargetOutcome.base_mismatch pr.base_ref "main") := by
  intro gw n
  refine ⟨rfl, ?_, ?_⟩
  · cases hpr : gw.pullDetail n with
    | ok pr =>
        by_cases hb : pr.base_ref = some "main" <;>
          simp [verify_pr_merge_target, call_github_api, hpr, hb, target_passed]
    | notFound =>
        simp [verify_pr_merge_target, call_github_api, hpr, target_passed]
    | transportError =>
        simp [verify_pr_merge_target, call_github_api, hpr, target_passed]
  · intro pr hpr hb
    simp [verify_pr_merge_target, call_github_api, hpr, hb]

/-- Claim C3: for every PR page returned by the gateway, discovery returns
the first entry in page order whose lower-cased title contains the
lower-cased keyword and whose merged timestamp is present; it returns no PR
exactly when no entry satisfies both conditions. -/
theorem claim_C3_discovery_first_match :
    ∀ (gw : Gateway) (kw base : String) (prs : List PullRequest),
      gw.pullsList base = ApiResult.ok prs →
      (((find_merged_pr gw kw base).1 = none ↔
          ∀ pr ∈ prs,
            ¬(strContains (strLower pr.title) (strLower kw) = true ∧
              pr.merged_at.isSome = true)) ∧
       (∀ pr : PullRequest,
          (find_merged_pr gw kw base).1 = some pr ↔
            (strContains (strLower pr.title) (strLower kw) = true ∧
             pr.merged_at.isSome = true) ∧
            ∃ l1 l2, prs = l1 ++ pr :: l2 ∧
              ∀ q ∈ l1,
                ¬(strContains (strLower q.title) (strLower kw) = true ∧
                  q.merged_at.isSome = true))) := by
  intro gw kw base prs h
  have hfind : (find_merged_pr gw kw base).1 =
      prs.find? (fun pr =>
        strContains (strLower pr.title) (strLower kw) &&
        pr.merged_at.isSome) := by
    simp [find_merged_pr, call_github_api, h]
  constructor
  · rw [hfind, List.find?_eq_none]
    simp
  · intro pr
    rw [hfind, List.find?_eq_some]
    simp [or_iff_not_imp_left]

/-- Claim C4: the File Integrity Check fetches and evaluates every rule of
the fixed four-rule table in declared order (one file fetch per rule, even
after failures), the step passes iff every rule's outcome is `passed`, and
removing the single keyword "MetaSep token mapping bug" from the changelog
fails exactly that rule and the step overall. -/
theorem claim_C4_file_integrity :
    ∀ gw : Gateway,
      ((verify_core_files gw).2.1 =
        core_files.map (fun rule =>
          ApiCall.fileContents rule.path rule.branch)) ∧
      ((verify_core_files gw).2.2 =
        core_files.map (fun rule =>
          check_rule rule (get_file_content gw rule.path rule.branch).1)) ∧
      ((verify_core_files gw).1 = true ↔
        ∀ o ∈ (verify_core_files gw).2.2, o = RuleOutcome.passed) ∧
      (verify_core_files good_gw).1 = true ∧
      (verify_core_files good_gw).2.2 =
        [RuleOutcome.passed, RuleOutcome.passed, RuleOutcome.passed,
         RuleOutcome.passed] ∧
      (verify_core_files bad_changelog_gw).2.2 =
        [RuleOutcome.passed, RuleOutcome.passed, RuleOutcome.passed,
         RuleOutcome.missing_content ["MetaSep token mapping bug"]] ∧
      (verify_core_files bad_changelog_gw).1 = false := by
  intro gw
  refine ⟨rfl, rfl, ?_, by decide, by decide, by decide, by decide⟩
  simp [verify_core_files, List.all_eq_true]

/-- Claim C2: the pipeline is fail-fast: the executed steps always form a
prefix of the canonical step order, every executed step except possibly the
last one passed, the run returns failure exactly when some executed step
failed, and in particular when the release branch is missing the run stops
at the Branch Check having issued only the one branch query — no file, PR
discovery, merge-target or merge-method operation occurs. -/
theorem claim_C2_fail_fast :
    ∀ (env : Env) (gw : Gateway),
      ((run_harmony_release_verification env gw).steps.map Prod.fst =
        step_order.take
          (run_harmony_release_verification env gw).steps.length) ∧
      (∀ p ∈ (run_harmony_release_verification env gw).steps.dropLast,
        p.2 = true) ∧
      ((run_harmony_release_verification env gw).passed = false ↔
        ∃ p ∈ (run_harmony_release_verification env gw).steps,
          p.2 = false) ∧
      ((gw.branches "release-v1.1.0").isOk = false →
        verify_environment env ≠ none →
        (run_harmony_release_verification env gw).passed = false ∧
        (run_harmony_release_verification env gw).steps =
          [(Step.environment, true), (Step.branches, false)] ∧
        (run_harmony_release_verification env gw).calls =
          [ApiCall.branch "release-v1.1.0"]) := by
  intro env gw
  refine ⟨run_steps_canonical_order env gw, run_dropLast_passed env gw,
    run_passed_false_iff env gw, ?_⟩
  intro hrel henv
  have hfail : verify_branches gw = (false, [ApiCall.branch "release-v1.1.0"]) :=
    verify_branches_fail_eq gw hrel
  rcases run_cases env gw with ⟨h1, h⟩ | ⟨_, hb, h⟩ | ⟨_, hb, _, h⟩ |
    ⟨_, hb, _, _, h⟩ | ⟨n, _, hb, _, _, _, _, h⟩ | ⟨n, _, hb, _, _, _, _, h⟩
  · exact absurd h1 henv
  · rw [h]; simp [hfail]
  all_goals rw [hfail] at hb; simp at hb

/-- Claim C8: the exit code is 0 iff every executed step passed, 1 iff some
executed step failed; when the token or the organization is unset the run
aborts at the environment step with exit code 1 before any gateway call. -/
theorem claim_C8_exit_code :
    ∀ (env : Env) (gw : Gateway),
      (main_exit_code env gw = 0 ↔
        ∀ p ∈ (run_harmony_release_verification env gw).steps, p.2 = true) ∧
      (main_exit_code env gw = 1 ↔
        ∃ p ∈ (run_harmony_release_verification env gw).steps,
          p.2 = false) ∧
      ((truthy_str env.github_token = false ∨
        truthy_str env.github_org = false) →
        main_exit_code env gw = 1 ∧
        (run_harmony_release_verification env gw).calls = [] ∧
        (run_harmony_release_verification env gw).steps =
          [(Step.environment, false)]) := by
  intro env gw
  have h0 : main_exit_code env gw = 0 ↔
      (run_harmony_release_verification env gw).passed = true := by
    unfold main_exit_code
    cases hp : (run_harmony_release_verification env gw).passed <;> simp [hp]
  have h1 : main_exit_code env gw = 1 ↔
      (run_harmony_release_verification env gw).passed = false := by
    unfold main_exit_code
    cases hp : (run_harmony_release_verification env gw).passed <;> simp [hp]
  refine ⟨h0.trans (run_passed_true_iff env gw),
    h1.trans (run_passed_false_iff env gw), ?_⟩
  intro hcfg
  have henv : verify_environment env = none :=
    (verify_environment_eq_none_iff env).mpr hcfg
  rcases run_cases env gw with ⟨_, h⟩ | ⟨hne, _, _⟩ | ⟨hne, _, _, _⟩ |
    ⟨hne, _, _, _, _⟩ | ⟨n, hne, _, _, _, _, _, _⟩ | ⟨n, hne, _, _, _, _, _, _⟩
  · rw [h1, h]
    exact ⟨rfl, rfl, rfl⟩
  all_goals exact absurd henv hne

/-- Claim C10: when discovery yields a matching merged PR whose number is
absent or 0, the orchestrator treats the run as a discovery failure — the
run fails at the PR-discovery step and no `pulls/{n}` or `commits/{sha}`
call is ever issued; conversely the merge-target and merge-method steps
execute only when the discovered number is present and nonzero. -/
theorem claim_C10_pr_number_truthiness :
    ∀ (env : Env) (gw : Gateway),
      (((verify_release_pr gw).1 = none ∨
        (verify_release_pr gw).1 = some 0) →
        verify_environment env ≠ none →
        (verify_branches gw).1 = true →
        (verify_core_files gw).1 = true →
        ((run_harmony_release_verification env gw).passed = false ∧
         (run_harmony_release_verification env gw).steps =
           [(Step.environment, true), (Step.branches, true),
            (Step.files, true), (Step.pr_discovery, false)] ∧
         (∀ c ∈ (run_harmony_release_verification env gw).calls,
           (∀ n, c ≠ ApiCall.pullDetail n) ∧
           (∀ sha, c ≠ ApiCall.commitDetail sha)))) ∧
      (∀ b2 : Bool,
        (Step.pr_target, b2) ∈
            (run_harmony_release_verification env gw).steps →
        ∃ n, (verify_release_pr gw).1 = some n ∧ n ≠ 0) ∧
      (∀ b2 : Bool,
        (Step.merge_method, b2) ∈
            (run_harmony_release_verification env gw).steps →
        ∃ n, (verify_release_pr gw).1 = some n ∧ n ≠ 0) := by
  intro env gw
  refine ⟨?_, ?_, ?_⟩
  · intro hdisc henv hbr hfl
    rcases run_cases env gw with ⟨h1, h⟩ | ⟨_, hb, h⟩ | ⟨_, _, hf, h⟩ |
      ⟨_, _, _, _, h⟩ | ⟨n, _, _, _, hp, hn, _, h⟩ | ⟨n, _, _, _, hp, hn, _, h⟩
    · exact absurd h1 henv
    · rw [hbr] at hb; exact absurd hb (by simp)
    · rw [hfl] at hf; exact absurd hf (by simp)
    · refine ⟨by rw [h], by rw [h], ?_⟩
      rw [h]
      intro c hc
      simp only [List.mem_append] at hc
      rcases hc with (hc | hc) | hc
      · obtain ⟨name, rfl⟩ := verify_branches_calls gw c hc
        exact ⟨fun n => by simp, fun sha => by simp⟩
      · rw [verify_core_files_calls] at hc
        simp [core_files] at hc
        rcases hc with rfl | rfl | rfl | rfl <;>
          exact ⟨fun n => by simp, fun sha => by simp⟩
      · rw [verify_release_pr_calls] at hc
        simp at hc
        subst hc
        exact ⟨fun n => by simp, fun sha => by simp⟩
    · rcases hdisc with hd | hd <;> rw [hp] at hd <;> simp at hd
      exact absurd hd hn
    · rcases hdisc with hd | hd <;> rw [hp] at hd <;> simp at hd
      exact absurd hd hn
  · intro b2 hmem
    rcases run_cases env gw with ⟨_, h⟩ | ⟨_, _, h⟩ | ⟨_, _, _, h⟩ |
      ⟨_, _, _, _, h⟩ | ⟨n, _, _, _, hp, hn, _, h⟩ | ⟨n, _, _, _, hp, hn, _, h⟩ <;>
      rw [h] at hmem <;> simp at hmem <;> exact ⟨n, hp, hn⟩
  · intro b2 hmem
    rcases run_cases env gw with ⟨_, h⟩ | ⟨_, _, h⟩ | ⟨_, _, _, h⟩ |
      ⟨_, _, _, _, h⟩ | ⟨n, _, _, _, hp, hn, _, h⟩ | ⟨n, _, _, _, hp, hn, _, h⟩ <;>
      rw [h] at hmem <;> simp at hmem <;> exact ⟨n, hp, hn⟩

/-- Witness for C1: the general theorem applied at the demo gateway, PR 42,
and the one-parent commit with message "Release v1.1.0 (#42)". -/
theorem claim_C1_witness :
    (verify_squash_merge
      (squash_demo_gw ⟨["p0"], "Release v1.1.0 (#42)"⟩) 42).1 = true :=
  (claim_C1_squash_merge_iff.1
    (squash_demo_gw ⟨["p0"], "Release v1.1.0 (#42)"⟩) 42
    { number := some 42, title := "Release v1.1.0",
      merged_at := some "2025-08-07T12:00:00Z",
      base_ref := some "main", merge_commit_sha := some "sha-1" }
    "sha-1" ⟨["p0"], "Release v1.1.0 (#42)"⟩
    rfl rfl (by decide) rfl).mpr ⟨rfl, by decide⟩

/-- Witness for C2: with the release branch missing, the run stops at the
Branch Check, having issued only the one branch query. -/
theorem claim_C2_witness :
    (run_harmony_release_verification demo_env bad_branch_gw).passed = false ∧
    (run_harmony_release_verification demo_env bad_branch_gw).steps =
      [(Step.environment, true), (Step.branches, false)] ∧
    (run_harmony_release_verification demo_env bad_branch_gw).calls =
      [ApiCall.branch "release-v1.1.0"] :=
  (claim_C2_fail_fast demo_env bad_branch_gw).2.2.2 (by decide) (by decide)

/-- Witness for C3: on a page whose third entry is the first with both a
matching title and a merged timestamp, discovery returns that entry. -/
theorem claim_C3_witness :
    (find_merged_pr c3_gw "Release v1.1.0" "main").1 = some c3_pr_c :=
  ((claim_C3_discovery_first_match c3_gw "Release v1.1.0" "main" c3_pr_page
      rfl).2 c3_pr_c).mpr
    ⟨⟨by decide, by decide⟩, [c3_pr_a, c3_pr_b], [c3_pr_d], rfl, by decide⟩

/-- Witness for C4: the all-good repository passes the File Integrity Check
and the one with the keyword removed fails it. -/
theorem claim_C4_witness :
    (verify_core_files good_gw).1 = true ∧
    (verify_core_files bad_changelog_gw).1 = false :=
  ⟨(claim_C4_file_integrity good_gw).2.2.2.1,
   (claim_C4_file_integrity bad_changelog_gw).2.2.2.2.2.2⟩

/-- Witness for C5: the case-sensitivity example extracted from the claim
theorem. -/
theorem claim_C5_witness :
    strContains "The changelog documents the MetaSep token mapping bug fix"
      "MetaSep token mapping bug" = true ∧
    strContains "The changelog documents the MetaSep token mapping bug fix"
      "metasep token mapping bug" = false :=
  ⟨(claim_C5_literal_substring_matching "x" "y" []).2.2.2.2.1,
   (claim_C5_literal_substring_matching "x" "y" []).2.2.2.2.2⟩

/-- Witness for C6: the Branch Check passes when both branches exist, and
404 and transport error yield the same API-helper value. -/
theorem claim_C6_witness :
    (verify_branches good_gw).1 = true ∧
    call_github_api (ApiResult.notFound : ApiResult Unit) =
      call_github_api (ApiResult.transportError : ApiResult Unit) :=
  ⟨(claim_C6_branch_check good_gw).1.mpr ⟨by decide, by decide⟩,
   (claim_C6_branch_check good_gw).2 Unit ApiResult.notFound
     ApiResult.transportError (by decide) (by decide)⟩

/-- Witness for C7: the Merge-Target Check passes on the demo PR merged
into `main`. -/
theorem claim_C7_witness :
    target_passed (verify_pr_merge_target good_gw 42).1 = true :=
  ((claim_C7_merge_target good_gw 42).2.1).mpr
    ⟨demo_pr_42, by decide, by decide⟩

/-- Witness for C8: with the token unset the exit code is 1 and no gateway
call is issued. -/
theorem claim_C8_witness :
    main_exit_code no_token_env good_gw = 1 ∧
    (run_harmony_release_verification no_token_env good_gw).calls = [] ∧
    (run_harmony_release_verification no_token_env good_gw).steps =
      [(Step.environment, false)] :=
  (claim_C8_exit_code no_token_env good_gw).2.2 (Or.inl (by decide))

/-- Witness for C9: a concrete rule applied to empty fetched content takes
the "not found or unreadable" branch. -/
theorem claim_C9_witness :
    check_rule
      { name := "demo", path := "p.md", branch := "main",
        pred := ContentPredicate.required_content "needle", min_size := 10 }
      (some "") = RuleOutcome.not_found_or_unreadable :=
  (claim_C9_empty_content_is_not_found
    { name := "demo", path := "p.md", branch := "main",
      pred := ContentPredicate.required_content "needle", min_size := 10 }).1

/-- Witness for C10: with a discovered PR lacking a number, the run fails at
the discovery step. -/
theorem claim_C10_witness :
    (run_harmony_release_verification demo_env no_number_gw).passed = false ∧
    (run_harmony_release_verification demo_env no_number_gw).steps =
      [(Step.environment, true), (Step.branches, true),
       (Step.files, true), (Step.pr_discovery, false)] := by
  have h := (claim_C10_pr_number_truthiness demo_env no_number_gw).1
    (Or.inl (by decide)) (by decide) (by decide) (by decide)
  exact ⟨h.1, h.2.1⟩
